import Mathlib

/-!
Verification of the push-notification consumer (`src/push_service/consumer.py`).

The embedding models JSON values, Python dict/truthiness semantics, the
template renderer, the DLQ / retry helpers and the `process_message`
state machine as executable Lean definitions, and proves the spec's
claims about them.
-/

set_option maxHeartbeats 1000000

namespace PushService

/-- JSON values as delivered by `json.loads` (numbers restricted to integers). -/
inductive JValue where
  | jstr (s : String)
  | jnum (n : Int)
  | jbool (b : Bool)
  | jnull
  | jobj (fields : List (String × JValue))
  | jarr (items : List JValue)

open JValue

/-- Python truthiness (`bool(x)`) on JSON values: empty string, zero, `False`,
`None`, empty dict and empty list are falsy. -/
def pyTruthy : JValue → Bool
  | .jstr s => !s.data.isEmpty
  | .jnum n => n != 0
  | .jbool b => b
  | .jnull => false
  | .jobj l => !l.isEmpty
  | .jarr l => !l.isEmpty

/-- Python `d.get(k)`: value of the first binding of `k`, else `None`. -/
def dictGet (l : List (String × JValue)) (k : String) : JValue :=
  match l.find? (fun kv => kv.1 == k) with
  | some kv => kv.2
  | none => .jnull

/-- Python `d.get(k, default)`: value of the binding of `k` when the key is
present (even if the value is `None`), else the default. -/
def dictGetD (l : List (String × JValue)) (k : String) (d : JValue) : JValue :=
  match l.find? (fun kv => kv.1 == k) with
  | some kv => kv.2
  | none => d

/-- Python `d[k] = v`: replace the binding in place when the key is present,
otherwise append the new binding at the end (insertion order). -/
def dictSet (l : List (String × JValue)) (k : String) (v : JValue) : List (String × JValue) :=
  if l.any (fun kv => kv.1 == k) then
    l.map (fun kv => if kv.1 == k then (k, v) else kv)
  else
    l ++ [(k, v)]

mutual

/-- Python `repr` of a JSON value (string escaping simplified to plain quotes). -/
def pyRepr : JValue → String
  | .jstr s => "\x27" ++ s ++ "\x27"
  | .jnum n => toString n
  | .jbool b => if b then "True" else "False"
  | .jnull => "None"
  | .jobj l => "\x7b" ++ pyPairsStr l ++ "\x7d"
  | .jarr l => "[" ++ pyItemsStr l ++ "]"

/-- Comma-separated `repr` of dict entries, as Python prints a dict body. -/
def pyPairsStr : List (String × JValue) → String
  | [] => ""
  | [kv] => "\x27" ++ kv.1 ++ "\x27: " ++ pyRepr kv.2
  | kv :: rest => "\x27" ++ kv.1 ++ "\x27: " ++ pyRepr kv.2 ++ ", " ++ pyPairsStr rest

/-- Comma-separated `repr` of list items, as Python prints a list body. -/
def pyItemsStr : List JValue → String
  | [] => ""
  | [v] => pyRepr v
  | v :: rest => pyRepr v ++ ", " ++ pyItemsStr rest

end

/-- Python `str(x)`: the string itself for strings, `repr` otherwise. -/
def pyStr : JValue → String
  | .jstr s => s
  | v => pyRepr v

/-- Worker for Python `s.replace(old, new)`: `skip` counts the characters of
a matched occurrence still to be consumed after its replacement was emitted;
at `skip = 0` the scan is in normal mode.  Structural recursion on the
string, so terms reduce definitionally. -/
def repGo (p r : List Char) : Nat → List Char → List Char
  | skip+1, _ :: t => repGo p r skip t
  | _+1, [] => []
  | 0, [] => if p.isEmpty then r else []
  | 0, c :: t =>
    if p.isEmpty then r ++ c :: repGo p r 0 t
    else if p.isPrefixOf (c :: t) then r ++ repGo p r (p.length - 1) t
    else c :: repGo p r 0 t

/-- Python `s.replace(old, new)` on character lists: leftmost, non-overlapping,
replaces every occurrence; an empty pattern inserts `new` at every position. -/
def replaceAllL (p r s : List Char) : List Char :=
  repGo p r 0 s

/-- Python `s.replace(old, new)` on strings. -/
def pyReplace (s old new : String) : String :=
  String.mk (replaceAllL old.data new.data s.data)

/-- The f-string `f"{{{{{key}}}}}"` of the source: the token `{{key}}`. -/
def placeholder (key : String) : String :=
  "\x7b\x7b" ++ key ++ "\x7d\x7d"

/-- The substitution loop body of `render_template_variables`: fold
`result = result.replace(placeholder, str(value))` over the dict entries in
insertion order. -/
def renderStr (s : String) (vl : List (String × JValue)) : String :=
  vl.foldl (fun acc kv => pyReplace acc (placeholder kv.1) (pyStr kv.2)) s

/-- `render_template_variables(template_string, variables)`.  A falsy template
(`None`, empty string, ...) yields `""`; otherwise the template must be a
string and the `variables` argument a dict or the call raises (`none`). -/
def render_template_variables (template_string : JValue) (vars : JValue) : Option String :=
  if pyTruthy template_string = false then some ""
  else
    match template_string, vars with
    | .jstr s, .jobj vl => some (renderStr s vl)
    | _, _ => none

/-- A UTC wall-clock instant, as captured by `datetime.utcnow()`. -/
structure UTCTime where
  year : Nat
  month : Nat
  day : Nat
  hour : Nat
  minute : Nat
  second : Nat
  microsecond : Nat

/-- Decimal rendering of `n` left-padded with zeros to width `w`. -/
def padNum (w n : Nat) : String :=
  let s := toString n
  String.mk (List.replicate (w - s.length) '0') ++ s

/-- `datetime.isoformat()`: `YYYY-MM-DDTHH:MM:SS[.ffffff]`, the fractional
part omitted when the microsecond field is zero. -/
def isoformat (t : UTCTime) : String :=
  padNum 4 t.year ++ "-" ++ padNum 2 t.month ++ "-" ++ padNum 2 t.day ++ "T" ++
    padNum 2 t.hour ++ ":" ++ padNum 2 t.minute ++ ":" ++ padNum 2 t.second ++
    (if t.microsecond == 0 then "" else "." ++ padNum 6 t.microsecond)

/-- Outcome of an HTTP GET against a collaborator: `none` models a timeout or
transport error (the exception paths), `some (status, body)` a response whose
body parsed as JSON. -/
abbrev HttpResp := Option (Nat × JValue)

/-- `fetch_user_data`: on a 200 response returns `response.json().get("data")`
(`None` when the body is not a dict), on any other status or error returns
`None`. -/
def fetch_user_data (resp : HttpResp) : JValue :=
  match resp with
  | none => .jnull
  | some (status, body) =>
    if status == 200 then
      match body with
      | .jobj l => dictGet l "data"
      | _ => .jnull
    else .jnull

/-- `fetch_template_data`: same contract as `fetch_user_data`, against the
template service. -/
def fetch_template_data (resp : HttpResp) : JValue :=
  match resp with
  | none => .jnull
  | some (status, body) =>
    if status == 200 then
      match body with
      | .jobj l => dictGet l "data"
      | _ => .jnull
    else .jnull

/-- Observable side effects of one `process_message` call, in program order. -/
inductive Event where
  | queueDeclare (queue : String)
  | publish (queue : String) (payload : JValue)
  | ack
  | nackNoRequeue
  | statusReport (notification_id : JValue) (status : String) (error : Option String)
  | sendAttempt (token : JValue) (title : String) (body : String)
      (data : List (String × JValue)) (image : JValue)

/-- The payload `move_to_dlq` publishes: the message with `failure_reason`
and `failed_at` (ISO timestamp plus a trailing `Z`) assigned. -/
def dlqPayload (message : List (String × JValue)) (reason : String) (now : UTCTime) :
    List (String × JValue) :=
  dictSet (dictSet message "failure_reason" (.jstr reason)) "failed_at"
    (.jstr (isoformat now ++ "Z"))

/-- `move_to_dlq`: declare the durable `failed.queue` and publish the augmented
payload onto it. -/
def move_to_dlq (message : List (String × JValue)) (reason : String) (now : UTCTime) :
    List Event :=
  [.queueDeclare "failed.queue", .publish "failed.queue" (.jobj (dlqPayload message reason now))]

/-- `schedule_retry`: declare the TTL queue `push.retry.{delay}` (which
dead-letters back to the main queue) and publish the message onto it. -/
def schedule_retry (message : List (String × JValue)) (delay : Nat) : List Event :=
  [.queueDeclare ("push.retry." ++ toString delay),
   .publish ("push.retry." ++ toString delay) (.jobj message)]

/-- `MAX_RETRY_COUNT = 3`. -/
def MAX_RETRY_COUNT : Nat := 3

/-- `RETRY_DELAYS = [60, 300, 900]` (seconds). -/
def RETRY_DELAYS : List Nat := [60, 300, 900]

/-- Python list indexing `l[i]`: negative indices count from the end, out of
range raises (`none`). -/
def pyIndex (l : List Nat) (i : Int) : Option Nat :=
  let j : Int := if i < 0 then (l.length : Int) + i else i
  if j < 0 then none else l.get? j.toNat

/-- Python integer coercion for arithmetic and list indexing: `bool` is an
`int` subclass (`True` counts as 1), every other non-`int` value raises a
`TypeError` (`none`). -/
def pyIntOf : JValue → Option Int
  | .jnum n => some n
  | .jbool b => some (if b then 1 else 0)
  | _ => none

/-- The `data_payload` built before delivery: `notification_id`, the
stringified `link`, then `update`d with the entries of a truthy
`variables.get("meta")` (which must be a dict, else the update raises). -/
def build_data_payload (notification_id : JValue) (vl : List (String × JValue)) :
    Option (List (String × JValue)) :=
  let base := [("notification_id", notification_id),
               ("link", JValue.jstr (pyStr (dictGetD vl "link" (.jstr ""))))]
  let meta := dictGet vl "meta"
  if pyTruthy meta then
    match meta with
    | .jobj ml => some (ml.foldl (fun acc kv => dictSet acc kv.1 kv.2) base)
    | _ => none
  else some base

/-- The failure branch after an unsuccessful gateway send (source lines
385-401): schedule a retry while `retry_count < MAX_RETRY_COUNT`, with the
delay looked up at the pre-increment count, else dead-letter. -/
def handle_delivery_failure (message : List (String × JValue)) (notification_id : JValue)
    (retry_count : Int) (now : UTCTime) : List Event :=
  if retry_count < (MAX_RETRY_COUNT : Int) then
    let message2 := dictSet message "retry_count" (.jnum (retry_count + 1))
    match (if retry_count < (RETRY_DELAYS.length : Int) then pyIndex RETRY_DELAYS retry_count
           else pyIndex RETRY_DELAYS (-1)) with
    | some delay =>
      schedule_retry message2 delay ++
        [.ack, .statusReport notification_id "pending"
           (some ("Retry scheduled (attempt " ++ toString (retry_count + 1) ++ ")"))]
    | none => [.nackNoRequeue]
  else
    move_to_dlq message "Max retries exceeded" now ++
      [.ack, .statusReport notification_id "failed" (some "Max retries exceeded")]

/-- The template-fetch / render / deliver tail of `process_message` (source
lines 346-401), reached once the user checks have passed. -/
def deliverPhase (message : List (String × JValue)) (notification_id vars : JValue)
    (retry_count : Int) (push_token : JValue) (tmplResp : HttpResp) (sendResult : Bool)
    (now : UTCTime) : List Event :=
  let template_data := fetch_template_data tmplResp
  if pyTruthy template_data = false then
    move_to_dlq message "Template not found" now ++
      [.ack, .statusReport notification_id "failed" (some "Template not found")]
  else
    match template_data with
    | .jobj td =>
      match render_template_variables (dictGetD td "title" (.jstr "Notification")) vars,
            render_template_variables (dictGetD td "body" (.jstr "")) vars,
            vars with
      | some title, some body_text, .jobj vl =>
        match build_data_payload notification_id vl with
        | some data_payload =>
          Event.sendAttempt push_token title body_text data_payload (dictGet td "image_url") ::
          (if sendResult then
            [.ack, .statusReport notification_id "delivered" none]
          else
            handle_delivery_failure message notification_id retry_count now)
        | none => [.nackNoRequeue]
      | _, _, _ => [.nackNoRequeue]
    | _ => [.nackNoRequeue]

/-- `process_message`, as the list of side effects it issues in order.
`raw` is the result of `json.loads` on the queue body (`none` = decode
error), `userResp`/`tmplResp` the collaborator responses, `sendResult` the
outcome of the delivery gateway call, `now` the wall clock.  Every Python
exception path (non-dict payloads, a retry count that is neither an int nor
a bool, ...) funnels into the `basic_nack(requeue=False)` handler, as in
the source. -/
def process_message (raw : Option JValue) (userResp tmplResp : HttpResp)
    (sendResult : Bool) (now : UTCTime) : List Event :=
  match raw with
  | none => [.nackNoRequeue]
  | some body =>
    match body with
    | .jobj message =>
      let notification_id := dictGet message "notification_id"
      let vars := dictGetD message "variables" (.jobj [])
      match pyIntOf (dictGetD message "retry_count" (.jnum 0)) with
      | some retry_count =>
        let user_data := fetch_user_data userResp
        if pyTruthy user_data = false then
          move_to_dlq message "User not found" now ++
            [.ack, .statusReport notification_id "failed" (some "User not found")]
        else
          match user_data with
          | .jobj ud =>
            let push_token := dictGet ud "push_token"
            if pyTruthy push_token = false then
              move_to_dlq message "Missing push token" now ++
                [.ack, .statusReport notification_id "failed" (some "Missing push token")]
            else
              match dictGetD ud "preferences" (.jobj []) with
              | .jobj prefs =>
                if pyTruthy (dictGetD prefs "push" (.jbool true)) = false then
                  [.ack, .statusReport notification_id "skipped"
                     (some "User disabled push notifications")]
                else
                  deliverPhase message notification_id vars retry_count push_token
                    tmplResp sendResult now
              | _ => [.nackNoRequeue]
          | _ => [.nackNoRequeue]
      | _ => [.nackNoRequeue]
    | _ => [.nackNoRequeue]

/-- Is this event a publish (to any queue)? -/
def isPub : Event → Bool
  | .publish _ _ => true
  | _ => false

/-- `true` when no publish event occurs after an acknowledgement: every
dead-letter or retry publish was issued before the ack. -/
def pubBeforeAck : List Event → Bool
  | [] => true
  | .ack :: rest => rest.all (fun e => !isPub e)
  | _ :: rest => pubBeforeAck rest

/-- Does the trace publish onto the given queue? -/
def hasPubTo (q : String) (evs : List Event) : Bool :=
  evs.any (fun e => match e with
    | .publish q2 _ => q2 == q
    | _ => false)

/-- Does the trace reject the message without requeue? -/
def hasNack (evs : List Event) : Bool :=
  evs.any (fun e => match e with
    | .nackNoRequeue => true
    | _ => false)

/-- Does the trace report any status? -/
def hasStatus (evs : List Event) : Bool :=
  evs.any (fun e => match e with
    | .statusReport _ _ _ => true
    | _ => false)

/-- Does the trace report this particular status and error? -/
def hasStatusOf (st : String) (err : Option String) (evs : List Event) : Bool :=
  evs.any (fun e => match e with
    | .statusReport _ s2 e2 => s2 == st && e2 == err
    | _ => false)

/-- Number of delivery attempts (gateway send calls) in the trace. -/
def countSends (evs : List Event) : Nat :=
  evs.countP (fun e => match e with
    | .sendAttempt _ _ _ _ _ => true
    | _ => false)

/-- The payload of the first publish onto a `push.retry.*` queue, if any. -/
def retryPublished (evs : List Event) : Option JValue :=
  evs.findSome? (fun e => match e with
    | .publish q p => if "push.retry.".data.isPrefixOf q.data then some p else none
    | _ => none)

/-- Modelled from the spec (§4.5/§6): the broker's TTL queue topology routes a
retry-published copy back onto the main queue, where the consumer processes it
as a fresh message.  `chain` iterates `process_message` along that loop, one
gateway outcome per round, stopping when no retry is re-published. -/
def chain (raw : Option JValue) (userResp tmplResp : HttpResp) (sends : List Bool)
    (now : UTCTime) : List (List Event) :=
  match sends with
  | [] => []
  | s :: rest =>
    let evs := process_message raw userResp tmplResp s now
    evs ::
      (match retryPublished evs with
       | some p => chain (some p) userResp tmplResp rest now
       | none => [])

/-- A user-service 200 response: `push_token` and `preferences` under `data`. -/
def goodUser (tok : JValue) (prefs : List (String × JValue)) : HttpResp :=
  some (200, .jobj [("data", .jobj [("push_token", tok), ("preferences", .jobj prefs)])])

/-- A template-service 200 response with `title` and `body` strings. -/
def goodTemplate (title body : String) : HttpResp :=
  some (200, .jobj [("data", .jobj [("title", .jstr title), ("body", .jstr body)])])

/-- A fixed wall-clock instant used by concrete scenarios. -/
def demoNow : UTCTime := ⟨2026, 1, 2, 3, 4, 5, 0⟩

/-- A well-formed concrete queue message used by concrete scenarios. -/
def demoMsg : List (String × JValue) :=
  [("notification_id", .jstr "n1"), ("user_id", .jstr "u1"),
   ("template_code", .jstr "welcome"), ("variables", .jobj [("name", .jstr "Ada")])]

/-- Character list of the `{{key}}` token. -/
def phData (k : String) : List Char := (placeholder k).data

/-- A key is brace-free when its characters contain neither brace. -/
def BraceFreeKey (k : String) : Prop := '{' ∉ k.data ∧ '}' ∉ k.data

/-- Template shape: literal text interleaved with `{{key}}` holes. -/
inductive Tok where
  | lit (s : String)
  | hole (k : String)

/-- Well-formed token: literal text without a left brace, hole key brace-free. -/
def TokWF : Tok → Prop
  | .lit s => '{' ∉ s.data
  | .hole k => BraceFreeKey k

/-- The template string denoted by a token list. -/
def flattenToks : List Tok → List Char
  | [] => []
  | .lit s :: ts => s.data ++ flattenToks ts
  | .hole k :: ts => phData k ++ flattenToks ts

/-- Substituting one variable: every `{{kk}}` hole becomes the literal `rr`. -/
def substOne (kk rr : String) : List Tok → List Tok :=
  List.map (fun t => match t with
    | .hole k => if k = kk then .lit rr else t
    | .lit s => .lit s)

/-- The substitution loop at the character level. -/
def renderL (cs : List Char) (vl : List (String × JValue)) : List Char :=
  vl.foldl (fun acc kv => replaceAllL (phData kv.1) (pyStr kv.2).data acc) cs

/-- Sequential substitution of all variables, in insertion order. -/
def substAll (vl : List (String × JValue)) (toks : List Tok) : List Tok :=
  vl.foldl (fun ts kv => substOne kv.1 (pyStr kv.2) ts) toks

/-- The string form of the first value bound to `k`, if any. -/
def lookupVal (vl : List (String × JValue)) (k : String) : Option String :=
  (vl.find? (fun kv => kv.1 == k)).map (fun kv => pyStr kv.2)

/-- Simultaneous substitution driven by a lookup function. -/
def substLook (f : String → Option String) : List Tok → List Tok :=
  List.map (fun t => match t with
    | .hole k => match f k with
      | some v => .lit v
      | none => .hole k
    | .lit s => .lit s)

lemma ph_cons (k : String) : phData k = '{' :: '{' :: (k.data ++ ['}', '}']) := by
  show ("\x7b\x7b" ++ k ++ "\x7d\x7d").data = _
  rw [String.data_append, String.data_append]
  rfl

lemma ph_ne_nil (k : String) : (phData k).isEmpty = false := by
  rw [ph_cons]; rfl

lemma replace_nil {p r : List Char} (hp : p.isEmpty = false) :
    replaceAllL p r [] = [] := by
  simp [replaceAllL, repGo, hp]

lemma replace_cons_no {p r : List Char} {c : Char} {t : List Char}
    (hp : p.isEmpty = false) (hnp : p.isPrefixOf (c :: t) = false) :
    replaceAllL p r (c :: t) = c :: replaceAllL p r t := by
  simp [replaceAllL, repGo, hp, hnp]

lemma isPrefixOf_self_app (l t : List Char) : l.isPrefixOf (l ++ t) = true := by
  induction l with
  | nil => simp [List.isPrefixOf]
  | cons a as ih => simp [List.isPrefixOf, ih]

lemma repGo_skip (p r : List Char) (x t : List Char) :
    repGo p r x.length (x ++ t) = repGo p r 0 t := by
  induction x with
  | nil => rfl
  | cons c x ih => exact ih

lemma replace_match {p r : List Char} (t : List Char) (hp : p.isEmpty = false) :
    replaceAllL p r (p ++ t) = r ++ replaceAllL p r t := by
  cases p with
  | nil => simp at hp
  | cons a as =>
    show repGo (a :: as) r 0 (a :: (as ++ t)) = r ++ repGo (a :: as) r 0 t
    have h1 : (a :: as).isPrefixOf (a :: (as ++ t)) = true := isPrefixOf_self_app (a :: as) t
    simp only [repGo, hp, h1, if_true, if_false, Bool.false_eq_true, ite_false, ite_true,
      List.length_cons, Nat.add_sub_cancel]
    rw [repGo_skip (a :: as) r as t]

lemma no_pfx_head {a b : Char} {p t : List Char} (h : a ≠ b) :
    (a :: p).isPrefixOf (b :: t) = false := by
  simp [List.isPrefixOf, h]

lemma replace_pass {p r m X : List Char} {p2 : List Char}
    (hp : p = '{' :: p2) (hm : '{' ∉ m) :
    replaceAllL p r (m ++ X) = m ++ replaceAllL p r X := by
  induction m with
  | nil => simp
  | cons c m' ih =>
    have hc : '{' ≠ c := fun he => hm (by rw [← he]; exact List.mem_cons_self _ _)
    have hnp : p.isPrefixOf (c :: (m' ++ X)) = false := by
      rw [hp]; exact no_pfx_head hc
    have hpe : p.isEmpty = false := by rw [hp]; rfl
    show replaceAllL p r (c :: (m' ++ X)) = _
    rw [replace_cons_no hpe hnp, ih (fun hmem => hm (List.mem_cons_of_mem _ hmem))]
    rfl

lemma bf_eq {a b u v : List Char} (ha : '}' ∉ a) (hb : '}' ∉ b)
    (h : (a ++ '}' :: u).isPrefixOf (b ++ '}' :: v) = true) : a = b := by
  induction a generalizing b with
  | nil =>
    cases b with
    | nil => rfl
    | cons d b' =>
      exfalso
      simp only [List.nil_append, List.cons_append, List.isPrefixOf, Bool.and_eq_true,
        beq_iff_eq] at h
      exact hb (by rw [h.1]; exact List.mem_cons_self _ _)
  | cons c a' ih =>
    cases b with
    | nil =>
      exfalso
      simp only [List.cons_append, List.nil_append, List.isPrefixOf, Bool.and_eq_true,
        beq_iff_eq] at h
      exact ha (by rw [← h.1]; exact List.mem_cons_self _ _)
    | cons d b' =>
      simp only [List.cons_append, List.isPrefixOf, Bool.and_eq_true, beq_iff_eq] at h
      have := ih (fun hmem => ha (List.mem_cons_of_mem _ hmem))
        (fun hmem => hb (List.mem_cons_of_mem _ hmem)) h.2
      rw [h.1, this]

lemma string_eq_of_data {a b : String} (h : a.data = b.data) : a = b := by
  cases a; cases b; simp only at h; rw [h]

lemma ph_no_pfx_ne {k k2 : String} (hkk : k ≠ k2) (hk : BraceFreeKey k)
    (hk2 : BraceFreeKey k2) (X : List Char) :
    (phData k).isPrefixOf (phData k2 ++ X) = false := by
  by_contra hne
  rw [Bool.not_eq_false] at hne
  rw [ph_cons, ph_cons] at hne
  have hsh : (('{' : Char) :: '{' :: (k2.data ++ ['}', '}'])) ++ X
      = '{' :: '{' :: (k2.data ++ '}' :: '}' :: X) := by
    simp [List.append_assoc]
  rw [hsh] at hne
  simp only [List.isPrefixOf, beq_self_eq_true, Bool.true_and] at hne
  have hdat : k.data = k2.data := by
    have h1 : k.data ++ '}' :: ['}'] = k.data ++ ['}', '}'] := rfl
    have h2 : k2.data ++ '}' :: ('}' :: X) = k2.data ++ '}' :: '}' :: X := rfl
    exact bf_eq hk.2 hk2.2 (by rw [h1, h2]; exact hne)
  exact hkk (string_eq_of_data hdat)

lemma ph_no_pfx_inner (k : String) {k2 : String} (hk2 : '{' ∉ k2.data) (X : List Char) :
    (phData k).isPrefixOf ('{' :: (k2.data ++ '}' :: '}' :: X)) = false := by
  rw [ph_cons]
  simp only [List.isPrefixOf, beq_self_eq_true, Bool.true_and]
  cases hd : k2.data with
  | nil => simpa using no_pfx_head (p := k.data ++ ['}', '}']) (by decide : ('{' : Char) ≠ '}')
  | cons d k2' =>
    have hne : ('{' : Char) ≠ d := fun he => hk2 (by rw [hd, ← he]; exact List.mem_cons_self _ _)
    simpa using no_pfx_head (p := k.data ++ ['}', '}']) hne

lemma token_replace {kk rr : String} (hk : BraceFreeKey kk) {toks : List Tok}
    (hwf : ∀ t ∈ toks, TokWF t) :
    replaceAllL (phData kk) rr.data (flattenToks toks)
      = flattenToks (substOne kk rr toks) := by
  induction toks with
  | nil => simpa [flattenToks, substOne] using replace_nil (ph_ne_nil kk)
  | cons t ts ih =>
    have hwt : TokWF t := hwf _ (List.mem_cons_self _ _)
    have hwts : ∀ x ∈ ts, TokWF x := fun x hx => hwf _ (List.mem_cons_of_mem _ hx)
    have pe : (phData kk).isEmpty = false := ph_ne_nil kk
    cases t with
    | lit s =>
      show replaceAllL _ _ (s.data ++ flattenToks ts) = _
      rw [replace_pass (ph_cons kk) hwt, ih hwts]
      simp [substOne, flattenToks]
    | hole k =>
      by_cases hkeq : k = kk
      · subst hkeq
        show replaceAllL (phData k) rr.data (phData k ++ flattenToks ts) = _
        rw [replace_match _ (ph_ne_nil k), ih hwts]
        simp [substOne, flattenToks]
      · have hE : phData k ++ flattenToks ts
            = '{' :: '{' :: (k.data ++ '}' :: '}' :: flattenToks ts) := by
          rw [ph_cons]; simp [List.append_assoc]
        have h1 : (phData kk).isPrefixOf (phData k ++ flattenToks ts) = false :=
          ph_no_pfx_ne (fun he => hkeq he.symm) hk hwt (flattenToks ts)
        rw [hE] at h1
        have h2 : (phData kk).isPrefixOf ('{' :: (k.data ++ '}' :: '}' :: flattenToks ts))
            = false := ph_no_pfx_inner kk hwt.1 (flattenToks ts)
        have h4 : (phData kk).isPrefixOf ('}' :: '}' :: flattenToks ts) = false := by
          rw [ph_cons]; exact no_pfx_head (by decide : ('{' : Char) ≠ '}')
        have h5 : (phData kk).isPrefixOf ('}' :: flattenToks ts) = false := by
          rw [ph_cons]; exact no_pfx_head (by decide : ('{' : Char) ≠ '}')
        show replaceAllL _ _ (phData k ++ flattenToks ts) = _
        rw [hE, replace_cons_no pe h1, replace_cons_no pe h2,
          replace_pass (ph_cons kk) hwt.1, replace_cons_no pe h4, replace_cons_no pe h5,
          ih hwts]
        simp [substOne, flattenToks, hkeq, ph_cons, List.append_assoc]

lemma renderStr_data (vl : List (String × JValue)) (s : String) :
    (renderStr s vl).data = renderL s.data vl := by
  induction vl generalizing s with
  | nil => rfl
  | cons kv vs ih =>
    show (renderStr (pyReplace s (placeholder kv.1) (pyStr kv.2)) vs).data = _
    rw [ih]
    rfl

lemma substOne_wf {kk rr : String} (hr : '{' ∉ rr.data) {toks : List Tok}
    (hwf : ∀ t ∈ toks, TokWF t) : ∀ t ∈ substOne kk rr toks, TokWF t := by
  intro t ht
  rcases List.mem_map.mp ht with ⟨t0, ht0, hmap⟩
  have hw0 := hwf t0 ht0
  cases t0 with
  | lit s => rw [← hmap]; exact hw0
  | hole k =>
    by_cases hk : k = kk
    · rw [← hmap]; simp only [hk, if_true, ite_true]; exact hr
    · rw [← hmap]; simp only [hk, if_false, ite_false]; exact hw0

lemma render_token : ∀ (vl : List (String × JValue)) (toks : List Tok),
    (∀ t ∈ toks, TokWF t) →
    (∀ kv ∈ vl, BraceFreeKey kv.1 ∧ '{' ∉ (pyStr kv.2).data) →
    renderL (flattenToks toks) vl = flattenToks (substAll vl toks) := by
  intro vl
  induction vl with
  | nil => intro toks _ _; rfl
  | cons kv vs ih =>
    intro toks hwf hvars
    have hkv := hvars kv (List.mem_cons_self _ _)
    have hvs : ∀ x ∈ vs, BraceFreeKey x.1 ∧ '{' ∉ (pyStr x.2).data :=
      fun x hx => hvars x (List.mem_cons_of_mem _ hx)
    show renderL (replaceAllL (phData kv.1) (pyStr kv.2).data (flattenToks toks)) vs
        = flattenToks (substAll vs (substOne kv.1 (pyStr kv.2) toks))
    rw [token_replace hkv.1 hwf]
    exact ih _ (substOne_wf hkv.2 hwf) hvs

lemma lookupVal_cons_self (kv : String × JValue) (vs : List (String × JValue)) :
    lookupVal (kv :: vs) kv.1 = some (pyStr kv.2) := by
  simp [lookupVal, List.find?]

lemma lookupVal_cons_ne (kv : String × JValue) (vs : List (String × JValue))
    {k : String} (h : kv.1 ≠ k) : lookupVal (kv :: vs) k = lookupVal vs k := by
  have hb : (kv.1 == k) = false := beq_eq_false_iff_ne.mpr h
  simp [lookupVal, List.find?, hb]

lemma substLook_after_one (kv : String × JValue) (vs : List (String × JValue))
    (ts : List Tok) :
    substLook (lookupVal vs) (substOne kv.1 (pyStr kv.2) ts)
      = substLook (lookupVal (kv :: vs)) ts := by
  induction ts with
  | nil => rfl
  | cons t ts ih =>
    cases t with
    | lit s =>
      show Tok.lit s :: substLook (lookupVal vs) (substOne kv.1 (pyStr kv.2) ts)
          = Tok.lit s :: substLook (lookupVal (kv :: vs)) ts
      rw [ih]
    | hole k =>
      by_cases hk : k = kv.1
      · have h1 : substOne kv.1 (pyStr kv.2) (Tok.hole k :: ts)
            = Tok.lit (pyStr kv.2) :: substOne kv.1 (pyStr kv.2) ts := by
          simp [substOne, hk]
        rw [h1]
        have h2 : substLook (lookupVal (kv :: vs)) (Tok.hole k :: ts)
            = Tok.lit (pyStr kv.2) :: substLook (lookupVal (kv :: vs)) ts := by
          have hl : lookupVal (kv :: vs) k = some (pyStr kv.2) := by
            rw [hk]; exact lookupVal_cons_self kv vs
          simp [substLook, hl]
        rw [h2]
        show Tok.lit (pyStr kv.2) :: substLook (lookupVal vs) (substOne kv.1 (pyStr kv.2) ts)
            = _
        rw [ih]
      · have h1 : substOne kv.1 (pyStr kv.2) (Tok.hole k :: ts)
            = Tok.hole k :: substOne kv.1 (pyStr kv.2) ts := by
          simp [substOne, hk]
        rw [h1]
        have hne : kv.1 ≠ k := fun he => hk he.symm
        have h2 : substLook (lookupVal (kv :: vs)) (Tok.hole k :: ts)
            = (match lookupVal vs k with
               | some v => Tok.lit v
               | none => Tok.hole k) :: substLook (lookupVal (kv :: vs)) ts := by
          simp [substLook, lookupVal_cons_ne kv vs hne]
        rw [h2]
        show (match lookupVal vs k with
              | some v => Tok.lit v
              | none => Tok.hole k) :: substLook (lookupVal vs) (substOne kv.1 (pyStr kv.2) ts)
            = _
        rw [ih]

lemma substAll_eq_look (vl : List (String × JValue)) :
    ∀ toks : List Tok, substAll vl toks = substLook (lookupVal vl) toks := by
  induction vl with
  | nil =>
    intro toks
    show toks = _
    induction toks with
    | nil => rfl
    | cons t ts ihh =>
      cases t with
      | lit s =>
        show Tok.lit s :: ts = Tok.lit s :: substLook (lookupVal []) ts
        rw [← ihh]
      | hole k =>
        show Tok.hole k :: ts = Tok.hole k :: substLook (lookupVal []) ts
        rw [← ihh]
  | cons kv vs ih =>
    intro toks
    show substAll vs (substOne kv.1 (pyStr kv.2) toks) = _
    rw [ih, substLook_after_one]

lemma lookupVal_perm : ∀ {vl1 vl2 : List (String × JValue)}, vl1.Perm vl2 →
    (vl1.map Prod.fst).Nodup → ∀ k, lookupVal vl1 k = lookupVal vl2 k := by
  intro vl1 vl2 hperm
  induction hperm with
  | nil => intro _ _; rfl
  | cons x h ih =>
    intro hnd k
    rw [List.map_cons, List.nodup_cons] at hnd
    by_cases hk : x.1 = k
    · rw [← hk, lookupVal_cons_self, lookupVal_cons_self]
    · rw [lookupVal_cons_ne x _ hk, lookupVal_cons_ne x _ hk]
      exact ih hnd.2 k
  | swap x y l =>
    intro hnd k
    rw [List.map_cons, List.map_cons, List.nodup_cons] at hnd
    have hxy : y.1 ≠ x.1 := fun he => hnd.1 (by rw [he]; exact List.mem_cons_self _ _)
    by_cases hy : y.1 = k
    · rw [← hy, lookupVal_cons_self, lookupVal_cons_ne x _ (fun he => hxy he.symm),
        lookupVal_cons_self]
    · rw [lookupVal_cons_ne y _ hy]
      by_cases hx : x.1 = k
      · rw [← hx, lookupVal_cons_self, lookupVal_cons_self]
      · rw [lookupVal_cons_ne x _ hx, lookupVal_cons_ne x _ hx, lookupVal_cons_ne y _ hy]
  | trans h1 h2 ih1 ih2 =>
    intro hnd k
    rw [ih1 hnd k]
    exact ih2 ((h1.map Prod.fst).nodup_iff.mp hnd) k

lemma replace_id_no_brace {p r cs p2 : List Char} (hp : p = '{' :: p2)
    (h : '{' ∉ cs) : replaceAllL p r cs = cs := by
  have hx := replace_pass (X := []) (r := r) hp h
  rw [List.append_nil] at hx
  rw [hx, replace_nil (by rw [hp]; rfl), List.append_nil]

lemma renderL_no_brace {cs : List Char} (h : '{' ∉ cs)
    (vl : List (String × JValue)) : renderL cs vl = cs := by
  induction vl with
  | nil => rfl
  | cons kv vs ih =>
    show renderL (replaceAllL (phData kv.1) (pyStr kv.2).data cs) vs = cs
    rw [replace_id_no_brace (ph_cons kv.1) h]
    exact ih

lemma renderStr_no_brace {s : String} (h : '{' ∉ s.data)
    (vl : List (String × JValue)) : renderStr s vl = s :=
  string_eq_of_data (by rw [renderStr_data]; exact renderL_no_brace h vl)

lemma render_jstr_obj (t : String) (vl : List (String × JValue)) :
    render_template_variables (.jstr t) (.jobj vl) = some (renderStr t vl) := by
  by_cases ht : pyTruthy (.jstr t) = false
  · have hte : t = "" := by
      have h2 : t.data.isEmpty = true := by
        simpa [pyTruthy] using ht
      have h3 : t.data = [] := by
        cases hd : t.data with
        | nil => rfl
        | cons c cs => rw [hd] at h2; simp at h2
      exact string_eq_of_data (by rw [h3])
    subst hte
    rw [render_template_variables, if_pos ht]
    have : renderStr "" vl = "" := renderStr_no_brace (by simp) vl
    rw [this]
  · rw [render_template_variables, if_neg ht]

/-- Master permutation lemma for the renderer: on a well-formed token
template, with brace-free distinct keys and left-brace-free values, the
substitution fold is insertion-order independent. -/
lemma renderStr_perm {toks : List Tok} {vl1 vl2 : List (String × JValue)}
    (hperm : vl1.Perm vl2) (hnd : (vl1.map Prod.fst).Nodup)
    (hwf : ∀ t ∈ toks, TokWF t)
    (hvars : ∀ kv ∈ vl1, BraceFreeKey kv.1 ∧ '{' ∉ (pyStr kv.2).data) :
    renderStr (String.mk (flattenToks toks)) vl1
      = renderStr (String.mk (flattenToks toks)) vl2 := by
  have hvars2 : ∀ kv ∈ vl2, BraceFreeKey kv.1 ∧ '{' ∉ (pyStr kv.2).data :=
    fun kv hkv => hvars kv (hperm.mem_iff.mpr hkv)
  apply string_eq_of_data
  rw [renderStr_data, renderStr_data]
  show renderL (flattenToks toks) vl1 = renderL (flattenToks toks) vl2
  rw [render_token vl1 toks hwf hvars, render_token vl2 toks hwf hvars2,
    substAll_eq_look, substAll_eq_look]
  have hf : lookupVal vl1 = lookupVal vl2 := funext (lookupVal_perm hperm hnd)
  rw [hf]

lemma dictSet_absent {l : List (String × JValue)} {k : String} (v : JValue)
    (h : ∀ kv ∈ l, kv.1 ≠ k) : dictSet l k v = l ++ [(k, v)] := by
  have ha : l.any (fun kv => kv.1 == k) = false := by
    rw [List.any_eq_false]
    intro x hx
    simpa using h x hx
  simp [dictSet, ha]

lemma dictGetD_absent {l : List (String × JValue)} {k : String} (d : JValue)
    (h : ∀ kv ∈ l, kv.1 ≠ k) : dictGetD l k d = d := by
  have hf : l.find? (fun kv => kv.1 == k) = none := by
    rw [List.find?_eq_none]
    intro x hx
    simpa using h x hx
  simp [dictGetD, hf]

lemma fetch_goodUser (tok : JValue) (prefs : List (String × JValue)) :
    fetch_user_data (goodUser tok prefs)
      = .jobj [("push_token", tok), ("preferences", .jobj prefs)] := by
  simp [goodUser, fetch_user_data, dictGet, List.find?]

lemma fetch_goodTemplate (ti bo : String) :
    fetch_template_data (goodTemplate ti bo)
      = .jobj [("title", .jstr ti), ("body", .jstr bo)] := by
  simp [goodTemplate, fetch_template_data, dictGet, List.find?]

lemma process_to_deliver (m : List (String × JValue)) (tok : JValue)
    (prefs : List (String × JValue)) (tr : HttpResp) (s : Bool) (now : UTCTime) (k : Int)
    (hrc : pyIntOf (dictGetD m "retry_count" (.jnum 0)) = some k)
    (htok : pyTruthy tok = true)
    (hpush : pyTruthy (dictGetD prefs "push" (.jbool true)) = true) :
    process_message (some (.jobj m)) (goodUser tok prefs) tr s now
      = deliverPhase m (dictGet m "notification_id") (dictGetD m "variables" (.jobj []))
          k tok tr s now := by
  have h1 := fetch_goodUser tok prefs
  have h0 : pyTruthy (.jobj [("push_token", tok), ("preferences", .jobj prefs)]) = true := rfl
  have h2 : dictGet [("push_token", tok), ("preferences", .jobj prefs)] "push_token" = tok := by
    simp [dictGet, List.find?]
  have h3 : dictGetD [("push_token", tok), ("preferences", .jobj prefs)] "preferences"
      (.jobj []) = .jobj prefs := by
    simp [dictGetD, List.find?]
  simp only [process_message, hrc, h1, h0, h2, h3, htok, hpush]
  simp

lemma process_skip (m : List (String × JValue)) (tok : JValue)
    (prefs : List (String × JValue)) (tr : HttpResp) (s : Bool) (now : UTCTime) (k : Int)
    (hrc : pyIntOf (dictGetD m "retry_count" (.jnum 0)) = some k)
    (htok : pyTruthy tok = true)
    (hpush : pyTruthy (dictGetD prefs "push" (.jbool true)) = false) :
    process_message (some (.jobj m)) (goodUser tok prefs) tr s now
      = [.ack, .statusReport (dictGet m "notification_id") "skipped"
           (some "User disabled push notifications")] := by
  have h1 := fetch_goodUser tok prefs
  have h0 : pyTruthy (.jobj [("push_token", tok), ("preferences", .jobj prefs)]) = true := rfl
  have h2 : dictGet [("push_token", tok), ("preferences", .jobj prefs)] "push_token" = tok := by
    simp [dictGet, List.find?]
  have h3 : dictGetD [("push_token", tok), ("preferences", .jobj prefs)] "preferences"
      (.jobj []) = .jobj prefs := by
    simp [dictGetD, List.find?]
  simp only [process_message, hrc, h1, h0, h2, h3, htok, hpush]
  simp

lemma process_user_not_found (m : List (String × JValue)) (u tr : HttpResp) (s : Bool)
    (now : UTCTime) (k : Int)
    (hrc : pyIntOf (dictGetD m "retry_count" (.jnum 0)) = some k)
    (hu : pyTruthy (fetch_user_data u) = false) :
    process_message (some (.jobj m)) u tr s now
      = move_to_dlq m "User not found" now ++
          [.ack, .statusReport (dictGet m "notification_id") "failed" (some "User not found")] := by
  simp [process_message, hrc, hu]

lemma process_missing_token (m : List (String × JValue)) {u : HttpResp} (tr : HttpResp)
    (s : Bool) (now : UTCTime) (k : Int) {ud : List (String × JValue)}
    (hrc : pyIntOf (dictGetD m "retry_count" (.jnum 0)) = some k)
    (hud : fetch_user_data u = .jobj ud)
    (hne : pyTruthy (.jobj ud) = true)
    (htok : pyTruthy (dictGet ud "push_token") = false) :
    process_message (some (.jobj m)) u tr s now
      = move_to_dlq m "Missing push token" now ++
          [.ack, .statusReport (dictGet m "notification_id") "failed"
             (some "Missing push token")] := by
  simp only [process_message, hrc, hud, hne, htok]
  simp

lemma hdf_retry (m : List (String × JValue)) (nid : JValue) (now : UTCTime)
    (k : Nat) (hk : k < 3) :
    handle_delivery_failure m nid (k : Int) now
      = schedule_retry (dictSet m "retry_count" (.jnum ((k : Int) + 1))) (RETRY_DELAYS.getD k 0) ++
        [.ack, .statusReport nid "pending"
           (some ("Retry scheduled (attempt " ++ toString ((k : Int) + 1) ++ ")"))] := by
  match k, hk with
  | 0, _ => simp [handle_delivery_failure, MAX_RETRY_COUNT, RETRY_DELAYS, pyIndex]
  | 1, _ => simp [handle_delivery_failure, MAX_RETRY_COUNT, RETRY_DELAYS, pyIndex]
  | 2, _ => simp [handle_delivery_failure, MAX_RETRY_COUNT, RETRY_DELAYS, pyIndex]

lemma hdf_exhausted (m : List (String × JValue)) (nid : JValue) (now : UTCTime)
    (k : Int) (hk : ¬ k < 3) :
    handle_delivery_failure m nid k now
      = move_to_dlq m "Max retries exceeded" now ++
          [.ack, .statusReport nid "failed" (some "Max retries exceeded")] := by
  simp [handle_delivery_failure, MAX_RETRY_COUNT, hk]

lemma deliver_goodTemplate (m : List (String × JValue)) (nid : JValue)
    (vl pl : List (String × JValue)) (k : Int) (tok : JValue) (s : Bool) (now : UTCTime)
    (ti bo : String) (hpl : build_data_payload nid vl = some pl) :
    deliverPhase m nid (.jobj vl) k tok (goodTemplate ti bo) s now
      = Event.sendAttempt tok (renderStr ti vl) (renderStr bo vl) pl .jnull ::
        (if s then [.ack, .statusReport nid "delivered" none]
         else handle_delivery_failure m nid k now) := by
  simp [deliverPhase, fetch_goodTemplate, pyTruthy, dictGet, dictGetD, List.find?,
    render_jstr_obj, hpl]

lemma pubBeforeAck_dlq_trace (msg : List (String × JValue)) (reason : String)
    (now : UTCTime) (nid : JValue) (st : String) (err : Option String) :
    pubBeforeAck (move_to_dlq msg reason now ++ [.ack, .statusReport nid st err]) = true := by
  simp [move_to_dlq, pubBeforeAck, isPub]

lemma pubBeforeAck_hdf (m : List (String × JValue)) (nid : JValue) (k : Int)
    (now : UTCTime) : pubBeforeAck (handle_delivery_failure m nid k now) = true := by
  unfold handle_delivery_failure
  split
  · split
    · simp [schedule_retry, pubBeforeAck, isPub]
    · simp [pubBeforeAck]
  · exact pubBeforeAck_dlq_trace _ _ _ _ _ _

lemma pubBeforeAck_deliver (m : List (String × JValue)) (nid vars : JValue) (k : Int)
    (tok : JValue) (tr : HttpResp) (s : Bool) (now : UTCTime) :
    pubBeforeAck (deliverPhase m nid vars k tok tr s now) = true := by
  simp only [deliverPhase]
  split
  · exact pubBeforeAck_dlq_trace _ _ _ _ _ _
  · split
    · split
      · split
        · split
          · simp [pubBeforeAck, isPub]
          · exact pubBeforeAck_hdf _ _ _ _
        · rfl
      · rfl
    · rfl

lemma pubBeforeAck_process (raw : Option JValue) (u tr : HttpResp) (s : Bool)
    (now : UTCTime) : pubBeforeAck (process_message raw u tr s now) = true := by
  cases raw with
  | none => rfl
  | some body =>
    cases body with
    | jobj m =>
      simp only [process_message]
      repeat' split
      all_goals first
        | exact pubBeforeAck_dlq_trace _ _ _ _ _ _
        | exact pubBeforeAck_deliver _ _ _ _ _ _ _ _
        | simp [pubBeforeAck, isPub]
    | jstr s2 => rfl
    | jnum n => rfl
    | jbool b => rfl
    | jnull => rfl
    | jarr l => rfl

lemma dictGet_absent {l : List (String × JValue)} {k : String}
    (h : ∀ kv ∈ l, kv.1 ≠ k) : dictGet l k = .jnull := by
  have hf : l.find? (fun kv => kv.1 == k) = none := by
    rw [List.find?_eq_none]
    intro x hx
    simpa using h x hx
  simp [dictGet, hf]

lemma find?_map_set (l : List (String × JValue)) (k : String) (v : JValue) :
    (l.map (fun kv => if kv.1 == k then (k, v) else kv)).find? (fun kv => kv.1 == k)
      = if l.any (fun kv => kv.1 == k) then some (k, v) else none := by
  induction l with
  | nil => simp
  | cons kv l ih =>
    rw [List.map_cons, List.any_cons]
    by_cases h : kv.1 == k
    · rw [if_pos h]
      rw [List.find?_cons_of_pos (p := fun kv2 => kv2.1 == k) (a := (k, v)) _ (by simp)]
      simp [h]
    · rw [if_neg h]
      rw [List.find?_cons_of_neg (p := fun kv2 => kv2.1 == k) (a := kv) _ (by simpa using h),
        ih]
      have h1 : ((kv.1 == k) : Bool) = false := by simpa using h
      rw [h1, Bool.false_or]

lemma dictGetD_set_self (l : List (String × JValue)) (k : String) (v d : JValue) :
    dictGetD (dictSet l k v) k d = v := by
  unfold dictSet
  by_cases h : l.any (fun kv => kv.1 == k)
  · rw [if_pos h]
    unfold dictGetD
    rw [find?_map_set, if_pos h]
  · rw [if_neg h]
    unfold dictGetD
    have hl : l.find? (fun kv => kv.1 == k) = none := by
      rw [List.find?_eq_none]
      intro x hx hbeq
      exact h (List.any_eq_true.mpr ⟨x, hx, hbeq⟩)
    rw [List.find?_append, hl]
    simp [List.find?]

/-- C4: on every path of `process_message`, no dead-letter or retry publish is
issued after the acknowledgement of the original message: the trace never
contains a publish event after an ack, for every input whatsoever. -/
theorem claim_C4_publish_before_ack (raw : Option JValue) (u tr : HttpResp) (s : Bool)
    (now : UTCTime) : pubBeforeAck (process_message raw u tr s now) = true :=
  pubBeforeAck_process raw u tr s now

/-- C2: a work item with `retry_count = k < MAX_RETRY_COUNT` whose delivery
fails is re-published to the `k`-th delay tier of `RETRY_DELAYS` with
`retry_count` set to `k+1`, then the original message is acknowledged and a
`pending` status is reported. -/
theorem claim_C2_retry_tier (m vl prefs pl : List (String × JValue)) (tok : JValue)
    (ti bo : String) (k : Nat) (now : UTCTime)
    (hk : k < MAX_RETRY_COUNT)
    (hrc : dictGetD m "retry_count" (.jnum 0) = .jnum (k : Int))
    (hvars : dictGetD m "variables" (.jobj []) = .jobj vl)
    (htok : pyTruthy tok = true)
    (hpush : pyTruthy (dictGetD prefs "push" (.jbool true)) = true)
    (hpl : build_data_payload (dictGet m "notification_id") vl = some pl) :
    process_message (some (.jobj m)) (goodUser tok prefs) (goodTemplate ti bo) false now
      = Event.sendAttempt tok (renderStr ti vl) (renderStr bo vl) pl .jnull ::
        (schedule_retry (dictSet m "retry_count" (.jnum ((k : Int) + 1)))
            (RETRY_DELAYS.getD k 0) ++
         [.ack, .statusReport (dictGet m "notification_id") "pending"
            (some ("Retry scheduled (attempt " ++ toString ((k : Int) + 1) ++ ")"))])
    ∧ dictGetD (dictSet m "retry_count" (.jnum ((k : Int) + 1))) "retry_count" (.jnum 0)
        = .jnum ((k : Int) + 1) := by
  constructor
  · rw [process_to_deliver m tok prefs _ false now (k : Int) (by rw [hrc]; rfl) htok hpush, hvars,
      deliver_goodTemplate m _ vl pl (k : Int) tok false now ti bo hpl]
    have hs : (if false then [Event.ack, Event.statusReport (dictGet m "notification_id")
        "delivered" none] else handle_delivery_failure m (dictGet m "notification_id")
        (k : Int) now) = handle_delivery_failure m (dictGet m "notification_id") (k : Int) now := by
      simp
    rw [hs, hdf_retry m _ now k hk]
  · exact dictGetD_set_self m "retry_count" (.jnum ((k : Int) + 1)) (.jnum 0)

/-- C5: a dead-lettered payload is exactly the original message with the two
fields `failure_reason` and `failed_at` appended, `failed_at` being the
ISO-8601 UTC instant with a trailing `Z`; `move_to_dlq` publishes it onto the
durable `failed.queue`. -/
theorem claim_C5_dlq_roundtrip (msg : List (String × JValue)) (reason : String)
    (now : UTCTime)
    (h1 : ∀ kv ∈ msg, kv.1 ≠ "failure_reason")
    (h2 : ∀ kv ∈ msg, kv.1 ≠ "failed_at") :
    dlqPayload msg reason now
      = msg ++ [("failure_reason", .jstr reason),
                ("failed_at", .jstr (isoformat now ++ "Z"))]
    ∧ (isoformat now ++ "Z").data.getLast? = some 'Z'
    ∧ move_to_dlq msg reason now
      = [.queueDeclare "failed.queue",
         .publish "failed.queue" (.jobj (dlqPayload msg reason now))] := by
  refine ⟨?_, ?_, rfl⟩
  · unfold dlqPayload
    rw [dictSet_absent _ h1]
    have h2b : ∀ kv ∈ msg ++ [("failure_reason", JValue.jstr reason)], kv.1 ≠ "failed_at" := by
      intro kv hkv
      rcases List.mem_append.mp hkv with hm | hm
      · exact h2 kv hm
      · rcases List.mem_singleton.mp hm with rfl
        exact (by decide : ("failure_reason" : String) ≠ "failed_at")
    rw [dictSet_absent _ h2b, List.append_assoc]
    rfl
  · rw [String.data_append]
    exact List.getLast?_concat _

/-- Demo user-service response: a valid user with a token and push enabled. -/
def demoUser : HttpResp := goodUser (.jstr "tok") []

/-- Demo template-service response. -/
def demoTmpl : HttpResp := goodTemplate "T" "B"

/-- The broker-loop trace of `demoMsg` under a given sequence of gateway
outcomes. -/
def demoChain (sends : List Bool) : List (List Event) :=
  chain (some (.jobj demoMsg)) demoUser demoTmpl sends demoNow

/-- Witness for C2 at a concrete work item with `retry_count = 1`. -/
theorem claim_C2_witness :
    process_message (some (.jobj (demoMsg ++ [("retry_count", .jnum 1)])))
        (goodUser (.jstr "tok") []) (goodTemplate "T" "B") false demoNow
      = Event.sendAttempt (.jstr "tok") (renderStr "T" [("name", .jstr "Ada")])
          (renderStr "B" [("name", .jstr "Ada")])
          [("notification_id", .jstr "n1"), ("link", .jstr "")] .jnull ::
        (schedule_retry (dictSet (demoMsg ++ [("retry_count", .jnum 1)]) "retry_count"
            (.jnum (((1 : Nat) : Int) + 1))) (RETRY_DELAYS.getD 1 0) ++
         [.ack, .statusReport (dictGet (demoMsg ++ [("retry_count", .jnum 1)]) "notification_id")
            "pending" (some ("Retry scheduled (attempt " ++ toString (((1 : Nat) : Int) + 1) ++ ")"))])
    ∧ dictGetD (dictSet (demoMsg ++ [("retry_count", .jnum 1)]) "retry_count"
        (.jnum (((1 : Nat) : Int) + 1))) "retry_count" (.jnum 0)
        = .jnum (((1 : Nat) : Int) + 1) :=
  claim_C2_retry_tier (demoMsg ++ [("retry_count", .jnum 1)]) [("name", .jstr "Ada")] []
    [("notification_id", .jstr "n1"), ("link", .jstr "")] (.jstr "tok") "T" "B" 1 demoNow
    (by decide) (by rfl) (by rfl) (by rfl) (by rfl) (by rfl)

/-- Witness for C5 at the concrete demo message. -/
theorem claim_C5_witness :
    dlqPayload demoMsg "Max retries exceeded" demoNow
      = demoMsg ++ [("failure_reason", .jstr "Max retries exceeded"),
                    ("failed_at", .jstr (isoformat demoNow ++ "Z"))]
    ∧ (isoformat demoNow ++ "Z").data.getLast? = some 'Z'
    ∧ move_to_dlq demoMsg "Max retries exceeded" demoNow
      = [.queueDeclare "failed.queue",
         .publish "failed.queue" (.jobj (dlqPayload demoMsg "Max retries exceeded" demoNow))] :=
  claim_C5_dlq_roundtrip demoMsg "Max retries exceeded" demoNow (by decide) (by decide)

/-- C1 (amended): a work item whose delivery fails with
`retry_count = MAX_RETRY_COUNT` is dead-lettered with reason
"Max retries exceeded", a `failed` status is reported, the original message is
acknowledged and no retry is re-enqueued; but an item failing on attempts
0, 1, 2 is re-enqueued after the 3rd failure and does reach a 4th delivery
attempt, being dead-lettered only when that attempt also fails. -/
theorem claim_C1_max_retries (m vl prefs pl : List (String × JValue)) (tok : JValue)
    (ti bo : String) (now : UTCTime)
    (hrc : dictGetD m "retry_count" (.jnum 0) = .jnum 3)
    (hvars : dictGetD m "variables" (.jobj []) = .jobj vl)
    (htok : pyTruthy tok = true)
    (hpush : pyTruthy (dictGetD prefs "push" (.jbool true)) = true)
    (hpl : build_data_payload (dictGet m "notification_id") vl = some pl) :
    process_message (some (.jobj m)) (goodUser tok prefs) (goodTemplate ti bo) false now
      = Event.sendAttempt tok (renderStr ti vl) (renderStr bo vl) pl .jnull ::
        (move_to_dlq m "Max retries exceeded" now ++
         [.ack, .statusReport (dictGet m "notification_id") "failed"
            (some "Max retries exceeded")])
    ∧ retryPublished (process_message (some (.jobj m)) (goodUser tok prefs)
        (goodTemplate ti bo) false now) = none
    ∧ (demoChain [false, false, false, true]).length = 4
    ∧ countSends ((demoChain [false, false, false, true]).getD 3 []) = 1
    ∧ hasStatusOf "delivered" none ((demoChain [false, false, false, true]).getD 3 []) = true
    ∧ hasPubTo "failed.queue" ((demoChain [false, false, false, false]).getD 3 []) = true := by
  have h1 : process_message (some (.jobj m)) (goodUser tok prefs) (goodTemplate ti bo)
      false now
      = Event.sendAttempt tok (renderStr ti vl) (renderStr bo vl) pl .jnull ::
        (move_to_dlq m "Max retries exceeded" now ++
         [.ack, .statusReport (dictGet m "notification_id") "failed"
            (some "Max retries exceeded")]) := by
    rw [process_to_deliver m tok prefs _ false now 3 (by rw [hrc]; rfl) htok hpush, hvars,
      deliver_goodTemplate m _ vl pl 3 tok false now ti bo hpl]
    have hs : (if false then [Event.ack, Event.statusReport (dictGet m "notification_id")
        "delivered" none] else handle_delivery_failure m (dictGet m "notification_id") 3 now)
        = handle_delivery_failure m (dictGet m "notification_id") 3 now := by
      simp
    rw [hs, hdf_exhausted m _ now 3 (by decide)]
  refine ⟨h1, ?_, by decide, by decide, by decide, by decide⟩
  rw [h1]
  simp [retryPublished, move_to_dlq, List.findSome?,
    (by decide : ("push.retry.".data.isPrefixOf "failed.queue".data) = false)]

/-- Counterexample for C1 as stated: with delivery failing on attempts 0, 1
and 2, the third failure does not dead-letter the item (no publish to
`failed.queue` in round 3, a retry is re-published instead) and a 4th
delivery attempt does occur in round 4. -/
theorem claim_C1_counterexample :
    (demoChain [false, false, false, true]).length = 4
    ∧ hasPubTo "failed.queue" ((demoChain [false, false, false, true]).getD 2 []) = false
    ∧ (retryPublished ((demoChain [false, false, false, true]).getD 2 [])).isSome = true
    ∧ countSends ((demoChain [false, false, false, true]).getD 3 []) = 1 := by
  refine ⟨by decide, by decide, by decide, by decide⟩

/-- Witness for C1 at a concrete work item with `retry_count = 3`. -/
theorem claim_C1_witness :
    process_message (some (.jobj (demoMsg ++ [("retry_count", .jnum 3)])))
        (goodUser (.jstr "tok") []) (goodTemplate "T" "B") false demoNow
      = Event.sendAttempt (.jstr "tok") (renderStr "T" [("name", .jstr "Ada")])
          (renderStr "B" [("name", .jstr "Ada")])
          [("notification_id", .jstr "n1"), ("link", .jstr "")] .jnull ::
        (move_to_dlq (demoMsg ++ [("retry_count", .jnum 3)]) "Max retries exceeded" demoNow ++
         [.ack, .statusReport (dictGet (demoMsg ++ [("retry_count", .jnum 3)]) "notification_id")
            "failed" (some "Max retries exceeded")])
    ∧ retryPublished (process_message (some (.jobj (demoMsg ++ [("retry_count", .jnum 3)])))
        (goodUser (.jstr "tok") []) (goodTemplate "T" "B") false demoNow) = none
    ∧ (demoChain [false, false, false, true]).length = 4
    ∧ countSends ((demoChain [false, false, false, true]).getD 3 []) = 1
    ∧ hasStatusOf "delivered" none ((demoChain [false, false, false, true]).getD 3 []) = true
    ∧ hasPubTo "failed.queue" ((demoChain [false, false, false, false]).getD 3 []) = true :=
  claim_C1_max_retries (demoMsg ++ [("retry_count", .jnum 3)]) [("name", .jstr "Ada")] []
    [("notification_id", .jstr "n1"), ("link", .jstr "")] (.jstr "tok") "T" "B" demoNow
    (by rfl) (by rfl) (by rfl) (by rfl) (by rfl)

/-- Counterexample for C8 as stated: with `preferences.push = false` the
reported skip reason is "User disabled push notifications", not the claimed
"push disabled by user". -/
theorem claim_C8_counterexample :
    process_message (some (.jobj demoMsg)) (goodUser (.jstr "tok") [("push", .jbool false)])
        demoTmpl true demoNow
      = [.ack, .statusReport (.jstr "n1") "skipped" (some "User disabled push notifications")]
    ∧ hasStatusOf "skipped" (some "push disabled by user")
        (process_message (some (.jobj demoMsg)) (goodUser (.jstr "tok")
          [("push", .jbool false)]) demoTmpl true demoNow) = false
    ∧ ("User disabled push notifications" : String) ≠ "push disabled by user" :=
  ⟨by rfl, by decide, by decide⟩

/-- C8 (amended): with `preferences.push` falsy the message is acknowledged
and a `skipped` status with reason "User disabled push notifications" is
reported, with no dead-letter and no retry publish; when the `push` key is
absent the behaviour is identical to `push = true` (enabled by default). -/
theorem claim_C8_skip (m prefs prefs2 : List (String × JValue)) (tok : JValue)
    (tr : HttpResp) (s : Bool) (now : UTCTime) (k : Int)
    (hrc : dictGetD m "retry_count" (.jnum 0) = .jnum k)
    (htok : pyTruthy tok = true)
    (hpush : pyTruthy (dictGetD prefs "push" (.jbool true)) = false)
    (hnopush : ∀ kv ∈ prefs2, kv.1 ≠ "push") :
    process_message (some (.jobj m)) (goodUser tok prefs) tr s now
      = [.ack, .statusReport (dictGet m "notification_id") "skipped"
           (some "User disabled push notifications")]
    ∧ hasPubTo "failed.queue"
        (process_message (some (.jobj m)) (goodUser tok prefs) tr s now) = false
    ∧ retryPublished
        (process_message (some (.jobj m)) (goodUser tok prefs) tr s now) = none
    ∧ process_message (some (.jobj m)) (goodUser tok prefs2) tr s now
        = process_message (some (.jobj m)) (goodUser tok [("push", .jbool true)]) tr s now := by
  have h1 := process_skip m tok prefs tr s now k (by rw [hrc]; rfl) htok hpush
  refine ⟨h1, ?_, ?_, ?_⟩
  · rw [h1]; simp [hasPubTo]
  · rw [h1]; simp [retryPublished, List.findSome?]
  · have e1 := process_to_deliver m tok prefs2 tr s now k (by rw [hrc]; rfl) htok
      (by rw [dictGetD_absent _ hnopush]; rfl)
    have e2 := process_to_deliver m tok [("push", .jbool true)] tr s now k (by rw [hrc]; rfl) htok (by rfl)
    rw [e1, e2]

/-- Witness for C8 (amended) at the concrete demo message. -/
theorem claim_C8_witness :
    process_message (some (.jobj demoMsg)) (goodUser (.jstr "tok") [("push", .jbool false)])
        demoTmpl true demoNow
      = [.ack, .statusReport (dictGet demoMsg "notification_id") "skipped"
           (some "User disabled push notifications")]
    ∧ hasPubTo "failed.queue" (process_message (some (.jobj demoMsg))
        (goodUser (.jstr "tok") [("push", .jbool false)]) demoTmpl true demoNow) = false
    ∧ retryPublished (process_message (some (.jobj demoMsg))
        (goodUser (.jstr "tok") [("push", .jbool false)]) demoTmpl true demoNow) = none
    ∧ process_message (some (.jobj demoMsg)) (goodUser (.jstr "tok") []) demoTmpl true demoNow
        = process_message (some (.jobj demoMsg)) (goodUser (.jstr "tok")
            [("push", .jbool true)]) demoTmpl true demoNow :=
  claim_C8_skip demoMsg [("push", .jbool false)] [] (.jstr "tok") demoTmpl true demoNow 0
    (by rfl) (by rfl) (by rfl) (by decide)

/-- C10: when the template record has no `title` field the delivered
notification title is the rendered default "Notification" (non-empty), and a
missing `body` defaults to the empty string. -/
theorem claim_C10_default_title (m vl prefs pl td : List (String × JValue)) (tok : JValue)
    (now : UTCTime) (k : Int)
    (hrc : dictGetD m "retry_count" (.jnum 0) = .jnum k)
    (hvars : dictGetD m "variables" (.jobj []) = .jobj vl)
    (htok : pyTruthy tok = true)
    (hpush : pyTruthy (dictGetD prefs "push" (.jbool true)) = true)
    (hpl : build_data_payload (dictGet m "notification_id") vl = some pl)
    (htd : pyTruthy (.jobj td) = true)
    (hti : ∀ kv ∈ td, kv.1 ≠ "title")
    (hbo : ∀ kv ∈ td, kv.1 ≠ "body") :
    process_message (some (.jobj m)) (goodUser tok prefs)
        (some (200, .jobj [("data", .jobj td)])) true now
      = [Event.sendAttempt tok "Notification" "" pl (dictGet td "image_url"),
         .ack, .statusReport (dictGet m "notification_id") "delivered" none]
    ∧ renderStr "Notification" vl = "Notification"
    ∧ ("Notification" : String) ≠ "" := by
  have hN : renderStr "Notification" vl = "Notification" :=
    renderStr_no_brace (by decide) vl
  have hE : renderStr "" vl = "" := renderStr_no_brace (by decide) vl
  refine ⟨?_, hN, by decide⟩
  rw [process_to_deliver m tok prefs _ true now k (by rw [hrc]; rfl) htok hpush, hvars]
  have hf : fetch_template_data (some (200, .jobj [("data", .jobj td)])) = .jobj td := by
    simp [fetch_template_data, dictGet, List.find?]
  have hti2 : dictGetD td "title" (.jstr "Notification") = .jstr "Notification" :=
    dictGetD_absent _ hti
  have hbo2 : dictGetD td "body" (.jstr "") = .jstr "" := dictGetD_absent _ hbo
  simp only [deliverPhase, hf, htd, hti2, hbo2, render_jstr_obj, hpl, hN, hE]
  simp

/-- Witness for C10 at a template record carrying only `image_url`. -/
theorem claim_C10_witness :
    process_message (some (.jobj demoMsg)) (goodUser (.jstr "tok") [])
        (some (200, .jobj [("data", .jobj [("image_url", .jstr "http://x/i.png")])])) true demoNow
      = [Event.sendAttempt (.jstr "tok") "Notification" ""
           [("notification_id", .jstr "n1"), ("link", .jstr "")]
           (dictGet [("image_url", .jstr "http://x/i.png")] "image_url"),
         .ack, .statusReport (dictGet demoMsg "notification_id") "delivered" none]
    ∧ renderStr "Notification" [("name", .jstr "Ada")] = "Notification"
    ∧ ("Notification" : String) ≠ "" :=
  claim_C10_default_title demoMsg [("name", .jstr "Ada")] []
    [("notification_id", .jstr "n1"), ("link", .jstr "")]
    [("image_url", .jstr "http://x/i.png")] (.jstr "tok") demoNow 0
    (by rfl) (by rfl) (by rfl) (by rfl) (by rfl) (by rfl) (by decide) (by decide)

/-- Counterexample for C3 as stated: a decodable payload missing
`notification_id` is not rejected; it flows through the pipeline, is
dead-lettered ("User not found" here) and a status report is sent. -/
theorem claim_C3_counterexample :
    hasPubTo "failed.queue" (process_message (some (.jobj [("user_id", .jstr "u1")]))
        (some (404, .jnull)) demoTmpl true demoNow) = true
    ∧ hasStatus (process_message (some (.jobj [("user_id", .jstr "u1")]))
        (some (404, .jnull)) demoTmpl true demoNow) = true
    ∧ hasNack (process_message (some (.jobj [("user_id", .jstr "u1")]))
        (some (404, .jnull)) demoTmpl true demoNow) = false
    ∧ hasStatusOf "failed" (some "User not found") (process_message
        (some (.jobj [("user_id", .jstr "u1")])) (some (404, .jnull)) demoTmpl true demoNow)
      = true :=
  ⟨by decide, by decide, by decide, by decide⟩

/-- C3 (amended): only a payload that fails JSON decoding (or is not a JSON
object) is rejected without requeue, with no retry, no dead-letter and no
status report; a decodable object without `notification_id` is processed
normally, reporting against a null id. -/
theorem claim_C3_reject_malformed :
    (∀ (u t : HttpResp) (s : Bool) (now : UTCTime),
        process_message none u t s now = [.nackNoRequeue])
    ∧ (∀ (sb : String) (u t : HttpResp) (s : Bool) (now : UTCTime),
        process_message (some (.jstr sb)) u t s now = [.nackNoRequeue])
    ∧ (∀ (m : List (String × JValue)) (u t : HttpResp) (s : Bool) (now : UTCTime) (k : Int),
        dictGetD m "retry_count" (.jnum 0) = .jnum k →
        pyTruthy (fetch_user_data u) = false →
        (∀ kv ∈ m, kv.1 ≠ "notification_id") →
        process_message (some (.jobj m)) u t s now
          = move_to_dlq m "User not found" now ++
              [.ack, .statusReport .jnull "failed" (some "User not found")]) := by
  refine ⟨fun u t s now => rfl, fun sb u t s now => rfl, ?_⟩
  intro m u t s now k hrc hu habs
  rw [process_user_not_found m u t s now k (by rw [hrc]; rfl) hu, dictGet_absent habs]

/-- Witness for C3 (amended), part 3, at a message carrying only `user_id`. -/
theorem claim_C3_witness :
    process_message (some (.jobj [("user_id", .jstr "u1")])) (some (404, .jnull))
        demoTmpl true demoNow
      = move_to_dlq [("user_id", .jstr "u1")] "User not found" demoNow ++
          [.ack, .statusReport .jnull "failed" (some "User not found")] :=
  claim_C3_reject_malformed.2.2 [("user_id", .jstr "u1")] (some (404, .jnull)) demoTmpl
    true demoNow 0 (by rfl) (by rfl) (by decide)

lemma process_same_falsy_user {u1 u2 : HttpResp}
    (h1 : pyTruthy (fetch_user_data u1) = false)
    (h2 : pyTruthy (fetch_user_data u2) = false) (raw : Option JValue) (tr : HttpResp)
    (s : Bool) (now : UTCTime) :
    process_message raw u1 tr s now = process_message raw u2 tr s now := by
  cases raw with
  | none => rfl
  | some body =>
    cases body with
    | jobj m =>
      cases hrc : pyIntOf (dictGetD m "retry_count" (.jnum 0)) with
      | some k =>
        rw [process_user_not_found m u1 tr s now k hrc h1,
          process_user_not_found m u2 tr s now k hrc h2]
      | none => simp only [process_message, hrc]
    | jstr s2 => rfl
    | jnum n => rfl
    | jbool b => rfl
    | jnull => rfl
    | jarr l => rfl

lemma process_same_token_missing {u1 u2 : HttpResp} {ud1 ud2 : List (String × JValue)}
    (hu1 : fetch_user_data u1 = .jobj ud1) (hn1 : pyTruthy (.jobj ud1) = true)
    (ht1 : pyTruthy (dictGet ud1 "push_token") = false)
    (hu2 : fetch_user_data u2 = .jobj ud2) (hn2 : pyTruthy (.jobj ud2) = true)
    (ht2 : pyTruthy (dictGet ud2 "push_token") = false)
    (raw : Option JValue) (tr : HttpResp) (s : Bool) (now : UTCTime) :
    process_message raw u1 tr s now = process_message raw u2 tr s now := by
  cases raw with
  | none => rfl
  | some body =>
    cases body with
    | jobj m =>
      cases hrc : pyIntOf (dictGetD m "retry_count" (.jnum 0)) with
      | some k =>
        rw [process_missing_token m tr s now k hrc hu1 hn1 ht1,
          process_missing_token m tr s now k hrc hu2 hn2 ht2]
      | none => simp only [process_message, hrc]
    | jstr s2 => rfl
    | jnum n => rfl
    | jbool b => rfl
    | jnull => rfl
    | jarr l => rfl

/-- C9: the orchestrator's existence checks are truthiness checks: a 200
user-service response whose `data` is an empty object (or missing) is
indistinguishable from a failed lookup (both dead-letter "User not found"),
and an empty-string `push_token` is indistinguishable from an absent one
(both dead-letter "Missing push token"). -/
theorem claim_C9_truthiness :
    (∀ (raw : Option JValue) (tr : HttpResp) (s : Bool) (now : UTCTime),
        process_message raw (some (200, .jobj [("data", .jobj [])])) tr s now
          = process_message raw (some (404, .jnull)) tr s now)
    ∧ (∀ (raw : Option JValue) (tr : HttpResp) (s : Bool) (now : UTCTime),
        process_message raw (some (200, .jobj [])) tr s now
          = process_message raw (some (404, .jnull)) tr s now)
    ∧ (∀ (raw : Option JValue) (tr : HttpResp) (s : Bool) (now : UTCTime)
          (prefs : List (String × JValue)),
        process_message raw (goodUser (.jstr "") prefs) tr s now
          = process_message raw (some (200, .jobj [("data",
              .jobj [("preferences", .jobj prefs)])])) tr s now)
    ∧ hasStatusOf "failed" (some "User not found") (process_message (some (.jobj demoMsg))
        (some (200, .jobj [("data", .jobj [])])) demoTmpl true demoNow) = true
    ∧ hasStatusOf "failed" (some "Missing push token") (process_message (some (.jobj demoMsg))
        (goodUser (.jstr "") []) demoTmpl true demoNow) = true := by
  refine ⟨?_, ?_, ?_, by decide, by decide⟩
  · intro raw tr s now
    exact process_same_falsy_user (by rfl) (by rfl) raw tr s now
  · intro raw tr s now
    exact process_same_falsy_user (by rfl) (by rfl) raw tr s now
  · intro raw tr s now prefs
    exact process_same_token_missing (fetch_goodUser _ _) (by rfl) (by rfl)
      (by rfl) (by rfl) (by rfl) raw tr s now

/-- Counterexample for C6 as stated: two permutations of the same variables
render differently when one value contains another variable's placeholder. -/
theorem claim_C6_counterexample :
    ([("b", JValue.jstr "X"), ("a", JValue.jstr "\x7b\x7bb\x7d\x7d")] :
        List (String × JValue)).Perm
      [("a", JValue.jstr "\x7b\x7bb\x7d\x7d"), ("b", JValue.jstr "X")]
    ∧ render_template_variables (.jstr "\x7b\x7ba\x7d\x7d")
        (.jobj [("a", JValue.jstr "\x7b\x7bb\x7d\x7d"), ("b", JValue.jstr "X")])
      ≠ render_template_variables (.jstr "\x7b\x7ba\x7d\x7d")
        (.jobj [("b", JValue.jstr "X"), ("a", JValue.jstr "\x7b\x7bb\x7d\x7d")]) :=
  ⟨List.Perm.swap _ _ _, by decide⟩

/-- C6 (amended): rendering is insertion-order independent whenever the
template is an interleaving of brace-free literals and placeholder holes with
brace-free keys, the mapping keys are distinct, and no value's string form
contains a left brace; in general (see the counterexample) permuting the
mapping can change the output. -/
theorem claim_C6_order (toks : List Tok) (vl1 vl2 : List (String × JValue))
    (hperm : vl1.Perm vl2) (hnd : (vl1.map Prod.fst).Nodup)
    (hwf : ∀ t ∈ toks, TokWF t)
    (hvars : ∀ kv ∈ vl1, BraceFreeKey kv.1 ∧ '{' ∉ (pyStr kv.2).data) :
    render_template_variables (.jstr (String.mk (flattenToks toks))) (.jobj vl1)
      = render_template_variables (.jstr (String.mk (flattenToks toks))) (.jobj vl2) := by
  rw [render_jstr_obj, render_jstr_obj, renderStr_perm hperm hnd hwf hvars]

/-- Witness for C6 (amended) on the template `Hi {{name}}`. -/
theorem claim_C6_witness :
    render_template_variables (.jstr "Hi \x7b\x7bname\x7d\x7d")
        (.jobj [("name", .jstr "Ada"), ("x", .jstr "1")])
      = render_template_variables (.jstr "Hi \x7b\x7bname\x7d\x7d")
        (.jobj [("x", .jstr "1"), ("name", .jstr "Ada")]) :=
  claim_C6_order [Tok.lit "Hi ", Tok.hole "name"]
    [("name", .jstr "Ada"), ("x", .jstr "1")] [("x", .jstr "1"), ("name", .jstr "Ada")]
    (List.Perm.swap _ _ _) (by decide)
    (by
      intro t ht
      rcases List.mem_cons.mp ht with rfl | ht2
      · show ('{' : Char) ∉ "Hi ".data
        decide
      · rcases List.mem_singleton.mp ht2 with rfl
        exact ⟨by decide, by decide⟩)
    (by
      intro kv hkv
      rcases List.mem_cons.mp hkv with rfl | hkv2
      · exact ⟨⟨by decide, by decide⟩, by decide⟩
      · rcases List.mem_singleton.mp hkv2 with rfl
        exact ⟨⟨by decide, by decide⟩, by decide⟩)

/-- C7: rendering is a pure function: an absent (`None` or empty) template
yields `""`; the spec's scenario `"Hi {{name}}"` with `name = "Ada"` renders
to `"Hi Ada"`; and on a well-formed token template every hole whose key is
bound is replaced by the value's string form while unbound holes stay
verbatim. -/
theorem claim_C7_render (toks : List Tok) (vl : List (String × JValue)) (vj : JValue)
    (hwf : ∀ t ∈ toks, TokWF t)
    (hvars : ∀ kv ∈ vl, BraceFreeKey kv.1 ∧ '{' ∉ (pyStr kv.2).data) :
    render_template_variables .jnull vj = some ""
    ∧ render_template_variables (.jstr "") vj = some ""
    ∧ render_template_variables (.jstr "Hi \x7b\x7bname\x7d\x7d")
        (.jobj [("name", .jstr "Ada")]) = some "Hi Ada"
    ∧ render_template_variables (.jstr (String.mk (flattenToks toks))) (.jobj vl)
        = some (String.mk (flattenToks (substLook (lookupVal vl) toks))) := by
  refine ⟨rfl, rfl, by decide, ?_⟩
  rw [render_jstr_obj]
  congr 1
  apply string_eq_of_data
  rw [renderStr_data]
  show renderL (flattenToks toks) vl = _
  rw [render_token vl toks hwf hvars, substAll_eq_look]

/-- Witness for C7 with one bound hole and one unbound hole. -/
theorem claim_C7_witness :
    render_template_variables .jnull (.jobj []) = some ""
    ∧ render_template_variables (.jstr "") (.jobj []) = some ""
    ∧ render_template_variables (.jstr "Hi \x7b\x7bname\x7d\x7d")
        (.jobj [("name", .jstr "Ada")]) = some "Hi Ada"
    ∧ render_template_variables (.jstr "Hi \x7b\x7bname\x7d\x7d\x7b\x7bother\x7d\x7d")
        (.jobj [("name", .jstr "Ada")])
        = some "Hi Ada\x7b\x7bother\x7d\x7d" :=
  claim_C7_render [Tok.lit "Hi ", Tok.hole "name", Tok.hole "other"]
    [("name", .jstr "Ada")] (.jobj [])
    (by
      intro t ht
      rcases List.mem_cons.mp ht with rfl | ht2
      · show ('{' : Char) ∉ "Hi ".data
        decide
      · rcases List.mem_cons.mp ht2 with rfl | ht3
        · exact ⟨by decide, by decide⟩
        · rcases List.mem_singleton.mp ht3 with rfl
          exact ⟨by decide, by decide⟩)
    (by
      intro kv hkv
      rcases List.mem_singleton.mp hkv with rfl
      exact ⟨⟨by decide, by decide⟩, by decide⟩)

end PushService
